import Mathlib

/-!
Verification of the SmartReminder notification scheduling subsystem.

The definitions below are a shallow embedding of the notification module
(`scheduleNotification`, `checkAndTriggerNotifications`,
`groupNotificationsByTimeAndPriority`, `snoozeNotification`,
`scheduleRecurringNotification`, `scheduleTaskReminder`,
`deleteScheduledNotification`, and the scheduler start/stop lifecycle of both
module variants).  Timestamps are epoch milliseconds modelled as `Int`;
identifiers (`crypto.randomUUID` in the source) are modelled as `Nat`; the
IndexedDB object store is modelled as a `List` of records in insertion order.
Calendar arithmetic (JS `Date.setDate` / `Date.setMonth`) is parameterised by
an advance function `adv : RecurringPattern → Int → Int`, with one concrete
instantiation used for closed examples.
-/

namespace SmartReminder

inductive Priority where
  | low
  | normal
  | high
deriving DecidableEq, Repr

inductive Category where
  | reminder
  | overdue
  | deadline
deriving DecidableEq, Repr

inductive RecurringPattern where
  | daily
  | weekly
  | monthly
deriving DecidableEq, Repr, Fintype

/-- The `ScheduledNotification` interface of the source module.  Optional
TypeScript fields (`priority?`, `category?`, `taskDueDate?`, `snoozeCount?`,
`originalScheduledTime?`, `recurringPattern?`) are modelled as `Option`. -/
structure ScheduledNotification where
  id : Nat
  taskId : Nat
  title : String
  body : String
  scheduledTime : Int
  isTriggered : Bool
  createdAt : Int
  priority : Option Priority := none
  category : Option Category := none
  taskDueDate : Option Int := none
  snoozeCount : Option Nat := none
  originalScheduledTime : Option Int := none
  isRecurring : Bool := false
  recurringPattern : Option RecurringPattern := none
deriving DecidableEq, Repr

/-- Option bag accepted by `scheduleNotification`. -/
structure ScheduleOptions where
  priority : Option Priority := none
  category : Option Category := none
  taskDueDate : Option Int := none
  isRecurring : Option Bool := none
  recurringPattern : Option RecurringPattern := none
deriving DecidableEq, Repr

/-- `scheduleNotification` (source part_000 lines 127-168): builds the record
that is persisted.  `id` stands for the fresh `crypto.randomUUID()`, `now` for
`Date.now()`.  `options?.priority || "normal"` and
`options?.category || "reminder"` become `getD`; the record always receives
`isTriggered := false`, `snoozeCount := 0` and
`originalScheduledTime := scheduledTime`. -/
def scheduleNotification (id taskId : Nat) (title body : String)
    (scheduledTime : Int) (opts : ScheduleOptions) (now : Int) :
    ScheduledNotification :=
  { id := id
    taskId := taskId
    title := title
    body := body
    scheduledTime := scheduledTime
    isTriggered := false
    createdAt := now
    priority := some (opts.priority.getD .normal)
    category := some (opts.category.getD .reminder)
    taskDueDate := opts.taskDueDate
    snoozeCount := some 0
    originalScheduledTime := some scheduledTime
    isRecurring := opts.isRecurring.getD false
    recurringPattern := opts.recurringPattern }

/-- IndexedDB `store.add`: appends the record; if a record with the same key
already exists the add request fails and the store is unchanged. -/
def addRecord (store : List ScheduledNotification)
    (n : ScheduledNotification) : List ScheduledNotification :=
  if store.any (fun m => m.id = n.id) then store else store ++ [n]

/-- The priority ranking used by the grouping comparator: high=3, normal=2,
low=1 (`priorityOrder[a.priority || "normal"]`). -/
def priorityOrder : Priority → Int
  | .high => 3
  | .normal => 2
  | .low => 1

/-- The comparator passed to `Array.prototype.sort` in
`groupNotificationsByTimeAndPriority`: priority descending, ties broken by
ascending `scheduledTime`. -/
def notifCmp (a b : ScheduledNotification) : Int :=
  if priorityOrder (a.priority.getD .normal) ≠ priorityOrder (b.priority.getD .normal)
  then priorityOrder (b.priority.getD .normal) - priorityOrder (a.priority.getD .normal)
  else a.scheduledTime - b.scheduledTime

/-- Stable insertion used to model the (stable) JS sort: `a` is placed before
the first element `b` with `notifCmp a b ≤ 0`, so elements comparing equal
keep their original relative order. -/
def insertSorted (a : ScheduledNotification) :
    List ScheduledNotification → List ScheduledNotification
  | [] => [a]
  | b :: l => if notifCmp a b ≤ 0 then a :: b :: l else b :: insertSorted a l

/-- The `[...notifications].sort(comparator)` step, as a stable insertion
sort. -/
def sortNotifications : List ScheduledNotification → List ScheduledNotification
  | [] => []
  | a :: l => insertSorted a (sortNotifications l)

/-- The grouping loop of `groupNotificationsByTimeAndPriority` (source
part_000 lines 433-451): walks the sorted list carrying `groups`,
`currentGroup` and `groupStartTime`. -/
def groupLoop (timeWindow : Int) :
    List ScheduledNotification → List (List ScheduledNotification) →
    List ScheduledNotification → Int → List (List ScheduledNotification)
  | [], groups, currentGroup, _ =>
      if currentGroup.isEmpty then groups else groups ++ [currentGroup]
  | n :: rest, groups, currentGroup, groupStartTime =>
      if currentGroup.isEmpty then
        groupLoop timeWindow rest groups [n] n.scheduledTime
      else if n.scheduledTime - groupStartTime ≤ timeWindow then
        groupLoop timeWindow rest groups (currentGroup ++ [n]) groupStartTime
      else
        groupLoop timeWindow rest (groups ++ [currentGroup]) [n] n.scheduledTime

/-- `groupNotificationsByTimeAndPriority` (source part_000 lines 416-454):
sort, then greedily split into time-window groups. -/
def groupNotificationsByTimeAndPriority (notifications : List ScheduledNotification)
    (timeWindow : Int) : List (List ScheduledNotification) :=
  groupLoop timeWindow (sortNotifications notifications) [] [] 0

/-- Modelled from the spec's words (for the refinement statement of the
grouping claim): walk the sorted list keeping the current group's first item
as anchor; start a new group exactly when an item's `scheduledTime` exceeds
the anchor's `scheduledTime` by more than the window, otherwise append. -/
def specGroupAux (timeWindow : Int) (anchor : ScheduledNotification)
    (cur : List ScheduledNotification) :
    List ScheduledNotification → List (List ScheduledNotification)
  | [] => [anchor :: cur]
  | n :: rest =>
      if n.scheduledTime - anchor.scheduledTime ≤ timeWindow then
        specGroupAux timeWindow anchor (cur ++ [n]) rest
      else
        (anchor :: cur) :: specGroupAux timeWindow n [] rest

/-- Modelled from the spec's words: greedy time-window grouping of an already
sorted list. -/
def specGroup (timeWindow : Int) :
    List ScheduledNotification → List (List ScheduledNotification)
  | [] => []
  | n :: rest => specGroupAux timeWindow n [] rest

/-- A notification is due: `!n.isTriggered && n.scheduledTime <= now`
(the filter of `checkAndTriggerNotifications`). -/
def isDue (now : Int) (n : ScheduledNotification) : Bool :=
  !n.isTriggered && decide (n.scheduledTime ≤ now)

/-- The record built by `scheduleRecurringNotification` for recurrence pattern
`p`: the next time is one calendar interval (`adv p`) past
`notification.originalScheduledTime || notification.scheduledTime`, and the
new record is created through `scheduleNotification` carrying forward
priority, category, taskDueDate and the recurrence fields. -/
def nextRecurring (adv : RecurringPattern → Int → Int) (p : RecurringPattern)
    (n : ScheduledNotification) (newId : Nat) (now : Int) :
    ScheduledNotification :=
  scheduleNotification newId n.taskId n.title n.body
    (adv p (n.originalScheduledTime.getD n.scheduledTime))
    { priority := n.priority
      category := n.category
      taskDueDate := n.taskDueDate
      isRecurring := some true
      recurringPattern := some p } now

/-- `scheduleRecurringNotification` (source part_000 lines 496-520): returns
early when the record has no recurrence pattern, otherwise creates the next
record of the chain. -/
def scheduleRecurringNotification (adv : RecurringPattern → Int → Int)
    (n : ScheduledNotification) (newId : Nat) (now : Int) :
    Option ScheduledNotification :=
  match n.recurringPattern with
  | none => none
  | some p => some (nextRecurring adv p n newId now)

/-- One concrete instantiation of the calendar advance used in closed
examples: a fixed-offset timezone at instants near the epoch (January 1970),
where `setDate(getDate()+1)` adds exactly one 86,400,000 ms day,
`setDate(getDate()+7)` adds seven, and `setMonth(getMonth()+1)` from January
adds the 31 days of January. -/
def advDemo : RecurringPattern → Int → Int
  | .daily, t => t + 86400000
  | .weekly, t => t + 7 * 86400000
  | .monthly, t => t + 31 * 86400000

/-- The helper that steps a recurrence chain: deliver record `n` and let
`scheduleRecurringNotification` create the successor (the record itself when
it carries no pattern, in which case the source creates nothing). -/
def recChainNext (adv : RecurringPattern → Int → Int) (now : Int)
    (newId : Nat) (n : ScheduledNotification) : ScheduledNotification :=
  match scheduleRecurringNotification adv n newId now with
  | some m => m
  | none => n

/-- The recurrence chain produced by repeated delivery of a recurring
notification: record 0 is created by `scheduleNotification` with recurrence
options, record k+1 by `scheduleRecurringNotification` applied to record k.
Delivery times do not influence the scheduled fields, so a single `now` is
threaded through. -/
def recChain (adv : RecurringPattern → Int → Int) (taskId : Nat)
    (title body : String) (t0 : Int) (p : RecurringPattern) (now : Int) :
    Nat → ScheduledNotification
  | 0 => scheduleNotification 0 taskId title body t0
      { isRecurring := some true, recurringPattern := some p } now
  | k + 1 => recChainNext adv now (k + 1)
      (recChain adv taskId title body t0 p now k)

/-- Fresh records created by the recurrence step of
`checkAndTriggerNotifications` for the delivered records, in processing
order, with fresh ids `idBase`, `idBase+1`, …; a record spawns a successor
exactly when `notification.isRecurring && notification.recurringPattern`. -/
def recurrenceRecords (adv : RecurringPattern → Int → Int) (now : Int) :
    Nat → List ScheduledNotification → List ScheduledNotification
  | _, [] => []
  | idBase, n :: rest =>
      match n.recurringPattern with
      | some p =>
          if n.isRecurring then
            nextRecurring adv p n idBase now ::
              recurrenceRecords adv now (idBase + 1) rest
          else recurrenceRecords adv now idBase rest
      | none => recurrenceRecords adv now idBase rest

/-- `checkAndTriggerNotifications` (source part_000 lines 339-414), as its
effect on the store: filter the due records, return unchanged when none;
otherwise group them with a 3-minute window, present each group, mark every
delivered record triggered (a get/put keyed by id) and append the recurrence
successors of the recurring ones.  The source interleaves the marks and adds
group by group; since marking is keyed by the already-stored ids and the
appended records receive fresh ids, the resulting store contents equal
marking all due records and then adding all successor records in processing
order. -/
def checkAndTriggerNotifications (adv : RecurringPattern → Int → Int)
    (now : Int) (idBase : Nat) (store : List ScheduledNotification) :
    List ScheduledNotification :=
  let due := store.filter (isDue now)
  if due.isEmpty then store
  else
    let dueIds := due.map (fun n => n.id)
    let marked := store.map fun n =>
      if n.id ∈ dueIds then { n with isTriggered := true } else n
    let delivered := (groupNotificationsByTimeAndPriority due (3 * 60 * 1000)).flatten
    (recurrenceRecords adv now idBase delivered).foldl addRecord marked

/-- The task record as read by the snooze path (`getTasks` from the external
db module): only `title` and the optional due timestamp are consulted. -/
structure Task where
  id : Nat
  title : String
  dueDate : Option Int := none
deriving DecidableEq, Repr

/-- The computation `snoozeNotification` performs before touching the store
(source part_000 lines 456-475): look up the task, read the current
`snoozeCount` of the first untriggered notification of the task
(`existingNotification?.snoozeCount || 0`), and build the new record through
`scheduleNotification` with `snoozeTime = now + minutes*60000`, the
count-dependent title, and priority `high` exactly when the new count
exceeds 2.  Returns the new record paired with the new snooze count, or
`none` when the task does not exist. -/
def snoozePlan (tasks : List Task) (taskId : Nat) (minutes : Int)
    (newId : Nat) (now : Int) (store : List ScheduledNotification) :
    Option (ScheduledNotification × Nat) :=
  match tasks.find? (fun t => t.id = taskId) with
  | none => none
  | some task =>
      let existing := store.find? fun n => n.taskId = taskId && !n.isTriggered
      let snoozeCount := (match existing with
        | some n => n.snoozeCount.getD 0
        | none => 0) + 1
      let snoozeTime := now + minutes * 60000
      let snoozeTitle := if snoozeCount > 1 then
          "Snoozed Task (" ++ toString snoozeCount ++ "x)"
        else "Snoozed Task Reminder"
      some (scheduleNotification newId taskId snoozeTitle
        ("Don\x27t forget: " ++ task.title) snoozeTime
        { priority := some (if snoozeCount > 2 then .high else .normal)
          category := some .reminder
          taskDueDate := task.dueDate } now, snoozeCount)

/-- Patch the first record matching `p` (the `find`-then-`put` of the snooze
patch step; `getAll` order is modelled as the store's list order). -/
def patchFirst (p : ScheduledNotification → Bool)
    (f : ScheduledNotification → ScheduledNotification) :
    List ScheduledNotification → List ScheduledNotification
  | [] => []
  | n :: l => if p n then f n :: l else n :: patchFirst p f l

/-- `snoozeNotification` (source part_000 lines 456-494) as a store
transformation: no-op when the task is missing; otherwise add the new record
built by `snoozePlan`, then re-read the store and patch the `snoozeCount`
field of the first record whose `taskId` and `scheduledTime` match the
snooze time. -/
def snoozeNotification (tasks : List Task) (taskId : Nat) (minutes : Int)
    (newId : Nat) (now : Int) (store : List ScheduledNotification) :
    List ScheduledNotification :=
  match snoozePlan tasks taskId minutes newId now store with
  | none => store
  | some (newRec, snoozeCount) =>
      patchFirst
        (fun n => n.taskId = taskId && n.scheduledTime = newRec.scheduledTime)
        (fun n => { n with snoozeCount := some snoozeCount })
        (addRecord store newRec)

/-- Option bag of `scheduleTaskReminder`. -/
structure TaskReminderOptions where
  priority : Option Priority := none
  taskDueDate : Option Int := none
deriving DecidableEq, Repr

/-- The inline category derivation of `scheduleTaskReminder` (source part_000
lines 541-551): with a due date, the gap `dueDate - reminderTime` ≤ 0 gives
`overdue`, a positive gap ≤ one hour gives `deadline`, otherwise
`reminder`. -/
def deriveCategory (dueDate : Option Int) (reminderTime : Int) : Category :=
  match dueDate with
  | none => .reminder
  | some d =>
      if d - reminderTime ≤ 0 then .overdue
      else if d - reminderTime ≤ 3600000 then .deadline
      else .reminder

/-- The title chosen by `scheduleTaskReminder` from the derived category. -/
def taskReminderTitle (c : Category) : String :=
  if c = .overdue then "Overdue Task!"
  else if c = .deadline then "Task Deadline Approaching"
  else "Task Reminder"

/-- `scheduleTaskReminder` (source part_000 lines 522-580), returning the
list of records it persists with fresh ids `idBase`, `idBase+1`, ….
Timestamps are passed as epoch milliseconds (the source parses ISO strings).
Rejects with no record when `reminderTime ≤ now`.  When repeating with an
interval the source immediately recurses on the advanced reminder time; each
recursive call re-checks the time guard, which always passes since advancing
moves forward, so the source recursion is unbounded — `fuel` bounds the
unrolling, matching the source on the first `fuel` records of the chain. -/
def scheduleTaskReminder (adv : RecurringPattern → Int → Int) (fuel : Nat)
    (taskId : Nat) (taskTitle : String) (reminderTime : Int)
    (isRepeating : Bool) (repeatInterval : Option RecurringPattern)
    (opts : TaskReminderOptions) (now : Int) (idBase : Nat) :
    List ScheduledNotification :=
  match fuel with
  | 0 => []
  | fuel + 1 =>
      if reminderTime ≤ now then []
      else
        scheduleNotification idBase taskId
            (taskReminderTitle (deriveCategory opts.taskDueDate reminderTime))
            ("Don\x27t forget: " ++ taskTitle) reminderTime
            { priority := some (opts.priority.getD
                (if deriveCategory opts.taskDueDate reminderTime = .overdue
                  then .high else .normal))
              category := some (deriveCategory opts.taskDueDate reminderTime)
              taskDueDate := opts.taskDueDate } now
          :: (match isRepeating, repeatInterval with
            | true, some p =>
                scheduleTaskReminder adv fuel taskId taskTitle
                  (adv p reminderTime) isRepeating repeatInterval opts now
                  (idBase + 1)
            | _, _ => [])

/-- `deleteScheduledNotification` (source part_000 lines 208-220): issues an
IndexedDB `store.delete(id)` and resolves on the request's success.  Per
IndexedDB semantics a delete request succeeds whether or not a record with
the key exists, so the operation resolves in both cases and never rejects
with a not-found error (only storage failures, not modelled, can reject). -/
def deleteScheduledNotification (store : List ScheduledNotification)
    (id : Nat) : Except String (List ScheduledNotification) :=
  .ok (store.filter (fun n => n.id ≠ id))

/-- The operations of the notification subsystem that touch the store. -/
inductive NotificationOp where
  | schedule (newId taskId : Nat) (title body : String) (t : Int)
      (opts : ScheduleOptions)
  | mark (id : Nat)
  | del (id : Nat)
  | snooze (taskId : Nat) (minutes : Int) (newId : Nat)
  | taskReminder (fuel taskId : Nat) (taskTitle : String) (reminderTime : Int)
      (isRepeating : Bool) (repeatInterval : Option RecurringPattern)
      (opts : TaskReminderOptions) (idBase : Nat)
  | check (idBase : Nat)
deriving Repr

/-- The store transformation of each operation.  `mark` is the get/put of
`markNotificationTriggered`, a no-op on the store when the id is absent (the
source rejects the promise in that case). -/
def applyOp (adv : RecurringPattern → Int → Int) (now : Int)
    (tasks : List Task) (op : NotificationOp)
    (store : List ScheduledNotification) : List ScheduledNotification :=
  match op with
  | .schedule newId taskId title body t opts =>
      addRecord store (scheduleNotification newId taskId title body t opts now)
  | .mark id =>
      store.map fun n =>
        if n.id = id then { n with isTriggered := true } else n
  | .del id => store.filter (fun n => n.id ≠ id)
  | .snooze taskId minutes newId =>
      snoozeNotification tasks taskId minutes newId now store
  | .taskReminder fuel taskId taskTitle reminderTime isRepeating ri opts idBase =>
      (scheduleTaskReminder adv fuel taskId taskTitle reminderTime isRepeating
        ri opts now idBase).foldl addRecord store
  | .check idBase => checkAndTriggerNotifications adv now idBase store

/-- State of the part_000 scheduler variant (lines 582-603): live interval
ids, the handle stashed on `window.__notificationInterval`, and the attached
listener registrations.  The `visibilitychange` handler is a fresh anonymous
arrow function on every start, so each start adds one more registration
(counted by `visibilityListeners`); the `focus` handler is the module-level
`checkAndTriggerNotifications` function itself, so re-registering it is the
identical (type, callback, capture) triple and the DOM discards the
duplicate — at most one `focus` registration ever exists (tracked by
`focusListenerAttached`).  This variant never removes either. -/
structure SchedulerState0 where
  intervals : List Nat
  windowInterval : Option Nat
  visibilityListeners : Nat
  focusListenerAttached : Bool
  nextId : Nat
deriving DecidableEq, Repr

def SchedulerState0.init : SchedulerState0 :=
  { intervals := [], windowInterval := none, visibilityListeners := 0,
    focusListenerAttached := false, nextId := 0 }

/-- part_000 `startNotificationScheduler`: create a fresh interval, attach a
fresh anonymous `visibilitychange` listener, register the module-level
function as `focus` listener (a duplicate registration is discarded by the
DOM), and overwrite the window slot with the new handle (the previous
handle, if any, is lost). -/
def startNotificationScheduler0 (s : SchedulerState0) : SchedulerState0 :=
  { intervals := s.intervals ++ [s.nextId]
    windowInterval := some s.nextId
    visibilityListeners := s.visibilityListeners + 1
    focusListenerAttached := true
    nextId := s.nextId + 1 }

/-- part_000 `stopNotificationScheduler`: clear the interval stored in the
window slot, if any; listeners are never detached. -/
def stopNotificationScheduler0 (s : SchedulerState0) : SchedulerState0 :=
  match s.windowInterval with
  | some id => { s with intervals := s.intervals.erase id, windowInterval := none }
  | none => s

/-- State of the part_001 scheduler variant (lines 398-445): live interval
ids, the module-level `notificationInterval` handle, the ids of attached
listener pairs (one `visibilitychange` + `focus` pair per start), and the
pair removed by the cleanup stashed on `window.__notificationCleanup`. -/
structure SchedulerState1 where
  intervals : List Nat
  notificationInterval : Option Nat
  listenerPairs : List Nat
  cleanupSlot : Option Nat
  nextId : Nat
deriving DecidableEq, Repr

def SchedulerState1.init : SchedulerState1 :=
  { intervals := [], notificationInterval := none, listenerPairs := []
    cleanupSlot := none, nextId := 0 }

/-- part_001 `startNotificationScheduler`: clear the previous interval if the
module handle is set, create a fresh interval, attach a fresh listener pair,
and overwrite the cleanup slot with one that removes only this new pair. -/
def startNotificationScheduler1 (s : SchedulerState1) : SchedulerState1 :=
  let s := match s.notificationInterval with
    | some id => { s with intervals := s.intervals.erase id }
    | none => s
  { intervals := s.intervals ++ [s.nextId]
    notificationInterval := some s.nextId
    listenerPairs := s.listenerPairs ++ [s.nextId]
    cleanupSlot := some s.nextId
    nextId := s.nextId + 1 }

/-- part_001 `stopNotificationScheduler`: clear the interval held by the
module handle and run the stashed cleanup, detaching the listener pair it
refers to. -/
def stopNotificationScheduler1 (s : SchedulerState1) : SchedulerState1 :=
  let s := match s.notificationInterval with
    | some id =>
        { s with intervals := s.intervals.erase id, notificationInterval := none }
    | none => s
  match s.cleanupSlot with
  | some p =>
      { s with listenerPairs := s.listenerPairs.erase p, cleanupSlot := none }
  | none => s

/-- Modelled from the spec wording of the sort order: priority descending
(high=3, normal=2, low=1), ties broken by ascending `scheduledTime`. -/
def specSortLe (a b : ScheduledNotification) : Prop :=
  priorityOrder (b.priority.getD .normal) < priorityOrder (a.priority.getD .normal)
  ∨ (priorityOrder (a.priority.getD .normal) = priorityOrder (b.priority.getD .normal)
      ∧ a.scheduledTime ≤ b.scheduledTime)

/-- Sample same-priority notification used in the concrete grouping example. -/
def demoNotif (i : Nat) (t : Int) : ScheduledNotification :=
  { id := i, taskId := 0, title := "", body := "", scheduledTime := t,
    isTriggered := false, createdAt := 0, priority := some .normal }

/-- A daily recurring record scheduled at time 0 (the record
`scheduleNotification` creates for those arguments), used in concrete
late-delivery scenarios. -/
def lateRecurring : ScheduledNotification :=
  { id := 0, taskId := 0, title := "t", body := "b", scheduledTime := 0,
    isTriggered := false, createdAt := 0, priority := some .normal,
    category := some .reminder, snoozeCount := some 0,
    originalScheduledTime := some 0, isRecurring := true,
    recurringPattern := some .daily }

/-- The record `scheduleTaskReminder` persists for task 0 titled T with
reminder time 10 and no due date, called at time 5 with fresh id 0. -/
def c2demoTaskRec : ScheduledNotification :=
  scheduleNotification 0 0 "Task Reminder" "Don\x27t forget: T" 10
    { priority := some .normal, category := some .reminder, taskDueDate := none } 5

/-- The record the snooze path creates for task 0 titled T, 10 minutes at
time 0 with fresh id 5, before the count patch. -/
def c2demoSnoozeRec : ScheduledNotification :=
  scheduleNotification 5 0 "Snoozed Task Reminder" "Don\x27t forget: T" 600000
    { priority := some .normal, category := some .reminder, taskDueDate := none } 0

/-- The record `scheduleTaskReminder` persists for task 0 titled T with
reminder time 100 and due date 50 (already overdue), called at time 0 with
fresh id 10. -/
def c7demoRec : ScheduledNotification :=
  scheduleNotification 10 0 "Overdue Task!" "Don\x27t forget: T" 100
    { priority := some .high, category := some .overdue, taskDueDate := some 50 } 0

/-- An already-triggered record, used in the monotonicity witness. -/
def trigDemoRec : ScheduledNotification :=
  { id := 0, taskId := 0, title := "t", body := "b", scheduledTime := 0,
    isTriggered := true, createdAt := 0 }

/-- An untriggered record for task 0 scheduled exactly at 60000 ms, the time
a 1-minute snooze issued at time 0 lands on: its scheduled time collides with
the snooze time. -/
def collDemoRec : ScheduledNotification :=
  { id := 0, taskId := 0, title := "x", body := "y", scheduledTime := 60000,
    isTriggered := false, createdAt := 0, priority := some .normal,
    category := some .reminder, snoozeCount := some 0,
    originalScheduledTime := some 60000 }

/-- An untriggered record for task 0 with snoozeCount 2, scheduled far from
any snooze time used in the examples. -/
def snooze2DemoRec : ScheduledNotification :=
  { id := 0, taskId := 0, title := "x", body := "y", scheduledTime := 999999,
    isTriggered := false, createdAt := 0, priority := some .normal,
    category := some .reminder, snoozeCount := some 2,
    originalScheduledTime := some 999999 }

theorem notifCmp_nonpos_iff (a b : ScheduledNotification) :
    notifCmp a b ≤ 0 ↔ specSortLe a b := by
  unfold notifCmp specSortLe
  split_ifs with h <;> omega

theorem notifCmp_total (a b : ScheduledNotification) :
    notifCmp a b ≤ 0 ∨ notifCmp b a ≤ 0 := by
  unfold notifCmp
  split_ifs with h1 h2 <;> omega

theorem notifCmp_trans {a b c : ScheduledNotification}
    (hab : notifCmp a b ≤ 0) (hbc : notifCmp b c ≤ 0) : notifCmp a c ≤ 0 := by
  unfold notifCmp at hab hbc ⊢
  split_ifs at hab hbc ⊢ <;> omega

theorem insertSorted_perm (a : ScheduledNotification)
    (l : List ScheduledNotification) : (insertSorted a l).Perm (a :: l) := by
  induction l with
  | nil => exact .refl _
  | cons b l ih =>
      unfold insertSorted
      split_ifs
      · exact .refl _
      · exact (ih.cons b).trans (List.Perm.swap a b l)

theorem sortNotifications_perm (l : List ScheduledNotification) :
    (sortNotifications l).Perm l := by
  induction l with
  | nil => exact .refl _
  | cons a l ih => exact (insertSorted_perm a _).trans (ih.cons a)

theorem insertSorted_pairwise (a : ScheduledNotification)
    {l : List ScheduledNotification}
    (h : l.Pairwise (fun x y => notifCmp x y ≤ 0)) :
    (insertSorted a l).Pairwise (fun x y => notifCmp x y ≤ 0) := by
  induction l with
  | nil => simp [insertSorted]
  | cons b l ih =>
      rw [List.pairwise_cons] at h
      unfold insertSorted
      split_ifs with hab
      · refine List.Pairwise.cons ?_ (List.Pairwise.cons h.1 h.2)
        intro x hx
        rcases List.mem_cons.mp hx with rfl | hx
        · exact hab
        · exact notifCmp_trans hab (h.1 x hx)
      · refine List.Pairwise.cons ?_ (ih h.2)
        intro x hx
        rcases List.mem_cons.mp ((insertSorted_perm a l).mem_iff.mp hx) with rfl | h1
        · rcases notifCmp_total x b with h2 | h2
          · exact absurd h2 hab
          · exact h2
        · exact h.1 x h1

theorem sortNotifications_pairwise (l : List ScheduledNotification) :
    (sortNotifications l).Pairwise (fun x y => notifCmp x y ≤ 0) := by
  induction l with
  | nil => exact .nil
  | cons a l ih => exact insertSorted_pairwise a ih

theorem groupLoop_eq_specAux (w : Int) (rest : List ScheduledNotification) :
    ∀ (groups : List (List ScheduledNotification))
      (a : ScheduledNotification) (cur : List ScheduledNotification),
      groupLoop w rest groups (a :: cur) a.scheduledTime
        = groups ++ specGroupAux w a cur rest := by
  induction rest with
  | nil => intro groups a cur; simp [groupLoop, specGroupAux]
  | cons n rest ih =>
      intro groups a cur
      show groupLoop w (n :: rest) groups (a :: cur) a.scheduledTime = _
      unfold groupLoop specGroupAux
      simp only [List.isEmpty_cons, Bool.false_eq_true, if_false]
      split_ifs with hw
      · exact ih groups a (cur ++ [n])
      · rw [ih (groups ++ [a :: cur]) n []]
        simp

theorem group_eq_specGroup (l : List ScheduledNotification) (w : Int) :
    groupNotificationsByTimeAndPriority l w = specGroup w (sortNotifications l) := by
  unfold groupNotificationsByTimeAndPriority specGroup
  cases hs : sortNotifications l with
  | nil => rfl
  | cons a rest =>
      show groupLoop w (a :: rest) [] [] 0 = specGroupAux w a [] rest
      unfold groupLoop
      simp only [List.isEmpty_nil, if_true]
      exact groupLoop_eq_specAux w rest [] a []

theorem groupLoop_flatten (w : Int) (rest : List ScheduledNotification) :
    ∀ (groups : List (List ScheduledNotification))
      (cur : List ScheduledNotification) (t : Int),
      (groupLoop w rest groups cur t).flatten = groups.flatten ++ cur ++ rest := by
  induction rest with
  | nil =>
      intro groups cur t
      unfold groupLoop
      split_ifs with hc
      · rw [List.isEmpty_iff.mp hc]; simp
      · simp
  | cons n rest ih =>
      intro groups cur t
      unfold groupLoop
      split_ifs with hc hw
      · rw [List.isEmpty_iff.mp hc, ih]; simp
      · rw [ih]; simp
      · rw [ih]; simp

theorem group_flatten_perm (l : List ScheduledNotification) (w : Int) :
    (groupNotificationsByTimeAndPriority l w).flatten.Perm l := by
  unfold groupNotificationsByTimeAndPriority
  rw [groupLoop_flatten]
  simpa using sortNotifications_perm l

/-- C3.  The trigger evaluator grouping first sorts by priority descending
with ties broken by ascending `scheduledTime` (the sorted list is a
permutation of the input and is pairwise ordered by that key), then walks the
sorted list greedily, starting a new group exactly when an item exceeds the
first item of the current group by more than the window (`specGroup`, written
from the spec wording); on the four same-priority notifications at
0, 60000, 120000 and 200000 ms with window 180000 ms it returns the first
three as one group and the last alone. -/
theorem groupNotifications_sorts_then_groups_greedily :
    (∀ l : List ScheduledNotification,
        (sortNotifications l).Perm l
        ∧ (sortNotifications l).Pairwise specSortLe)
    ∧ (∀ (l : List ScheduledNotification) (w : Int),
        groupNotificationsByTimeAndPriority l w = specGroup w (sortNotifications l))
    ∧ groupNotificationsByTimeAndPriority
        [demoNotif 0 0, demoNotif 1 60000, demoNotif 2 120000, demoNotif 3 200000]
        180000
      = [[demoNotif 0 0, demoNotif 1 60000, demoNotif 2 120000],
          [demoNotif 3 200000]] := by
  refine ⟨fun l => ⟨sortNotifications_perm l, ?_⟩, group_eq_specGroup, by decide⟩
  exact (sortNotifications_pairwise l).imp fun h => (notifCmp_nonpos_iff _ _).mp h

/-- C10.  The groups returned by `groupNotificationsByTimeAndPriority` form a
partition of the input list: their concatenation is a permutation of the
input, so every input notification lands in exactly one group, none is
dropped and none is duplicated. -/
theorem groupNotifications_partition (l : List ScheduledNotification) (w : Int) :
    (groupNotificationsByTimeAndPriority l w).flatten.Perm l :=
  group_flatten_perm l w

theorem recChain_pattern (adv : RecurringPattern → Int → Int) (taskId : Nat)
    (title body : String) (t0 : Int) (p : RecurringPattern) (now : Int) :
    ∀ k, (recChain adv taskId title body t0 p now k).recurringPattern = some p := by
  intro k
  induction k with
  | zero => rfl
  | succ k ih =>
      show (recChainNext adv now (k + 1)
        (recChain adv taskId title body t0 p now k)).recurringPattern = some p
      unfold recChainNext scheduleRecurringNotification
      rw [ih]
      rfl

theorem recChain_succ (adv : RecurringPattern → Int → Int) (taskId : Nat)
    (title body : String) (t0 : Int) (p : RecurringPattern) (now : Int)
    (j : Nat) :
    recChain adv taskId title body t0 p now (j + 1)
      = nextRecurring adv p (recChain adv taskId title body t0 p now j)
          (j + 1) now := by
  show recChainNext adv now (j + 1) (recChain adv taskId title body t0 p now j) = _
  unfold recChainNext scheduleRecurringNotification
  rw [recChain_pattern adv taskId title body t0 p now j]

/-- C1 (amended).  In a recurrence chain, every record has
`originalScheduledTime` equal to its own `scheduledTime` (not the first
record of the chain), and each successor is scheduled one calendar interval
past the previous record of the chain: the anchor is re-based at every step
instead of being propagated. -/
theorem recChain_originalScheduledTime (adv : RecurringPattern → Int → Int)
    (taskId : Nat) (title body : String) (t0 : Int) (p : RecurringPattern)
    (now : Int) (k : Nat) :
    (recChain adv taskId title body t0 p now k).originalScheduledTime
      = some (recChain adv taskId title body t0 p now k).scheduledTime
    ∧ (recChain adv taskId title body t0 p now (k + 1)).scheduledTime
      = adv p (recChain adv taskId title body t0 p now k).scheduledTime := by
  have horig : ∀ j, (recChain adv taskId title body t0 p now j).originalScheduledTime
      = some (recChain adv taskId title body t0 p now j).scheduledTime := by
    intro j
    induction j with
    | zero => rfl
    | succ j ih =>
        rw [recChain_succ adv taskId title body t0 p now j]
        rfl
  refine ⟨horig k, ?_⟩
  rw [recChain_succ adv taskId title body t0 p now k]
  show adv p ((recChain adv taskId title body t0 p now k).originalScheduledTime.getD
    (recChain adv taskId title body t0 p now k).scheduledTime) = _
  rw [horig k, Option.getD_some]

/-- C1 counterexample: for the daily chain started at time 0, the second
record has `originalScheduledTime` one day later than the first record
`scheduledTime`, refuting the claim that every record of the chain keeps the
first record scheduled time. -/
theorem recChain_counterexample :
    (recChain advDemo 0 "t" "b" 0 RecurringPattern.daily 0 1).originalScheduledTime
      ≠ some (recChain advDemo 0 "t" "b" 0 RecurringPattern.daily 0 0).scheduledTime := by
  decide

theorem mem_scheduleTaskReminder_lt (fuel : Nat) :
    ∀ (adv : RecurringPattern → Int → Int) (taskId : Nat) (taskTitle : String)
      (reminderTime : Int) (isRepeating : Bool) (ri : Option RecurringPattern)
      (opts : TaskReminderOptions) (now : Int) (idBase : Nat)
      (n : ScheduledNotification),
      n ∈ scheduleTaskReminder adv fuel taskId taskTitle reminderTime
        isRepeating ri opts now idBase →
      n.createdAt < n.scheduledTime := by
  induction fuel with
  | zero =>
      intro adv taskId taskTitle reminderTime isRepeating ri opts now idBase n hn
      simp [scheduleTaskReminder] at hn
  | succ fuel ih =>
      intro adv taskId taskTitle reminderTime isRepeating ri opts now idBase n hn
      unfold scheduleTaskReminder at hn
      by_cases hle : reminderTime ≤ now
      · rw [if_pos hle] at hn
        simp at hn
      · rw [if_neg hle] at hn
        rcases List.mem_cons.mp hn with rfl | hn
        · show now < reminderTime
          omega
        · cases isRepeating with
          | false => simp at hn
          | true =>
              cases ri with
              | none => simp at hn
              | some p =>
                  exact ih adv taskId taskTitle (adv p reminderTime) true
                    (some p) opts now (idBase + 1) n hn

/-- C2 (amended).  The scheduling entry point rejects a reminder time not in
the future, persisting nothing, and every record it does persist (including
the eagerly pre-scheduled repeats) has `scheduledTime` strictly greater than
its creation time; the snooze path with a positive minute delay likewise
creates a record scheduled strictly after its creation time.  The recurrence
path does not share this property (see the counterexample): it can persist a
record whose scheduled time precedes its creation time when delivery lags
the anchor by more than one interval. -/
theorem scheduling_entry_future_only :
    (∀ (adv : RecurringPattern → Int → Int) (fuel taskId : Nat)
        (taskTitle : String) (reminderTime : Int) (isRepeating : Bool)
        (ri : Option RecurringPattern) (opts : TaskReminderOptions)
        (now : Int) (idBase : Nat),
        reminderTime ≤ now →
        scheduleTaskReminder adv fuel taskId taskTitle reminderTime
          isRepeating ri opts now idBase = [])
    ∧ (∀ (adv : RecurringPattern → Int → Int) (fuel taskId : Nat)
        (taskTitle : String) (reminderTime : Int) (isRepeating : Bool)
        (ri : Option RecurringPattern) (opts : TaskReminderOptions)
        (now : Int) (idBase : Nat) (n : ScheduledNotification),
        n ∈ scheduleTaskReminder adv fuel taskId taskTitle reminderTime
          isRepeating ri opts now idBase →
        n.createdAt < n.scheduledTime)
    ∧ (∀ (tasks : List Task) (taskId : Nat) (minutes : Int) (newId : Nat)
        (now : Int) (store : List ScheduledNotification)
        (r : ScheduledNotification) (c : Nat),
        0 < minutes →
        snoozePlan tasks taskId minutes newId now store = some (r, c) →
        r.createdAt < r.scheduledTime) := by
  refine ⟨?_, fun adv fuel => mem_scheduleTaskReminder_lt fuel adv, ?_⟩
  · intro adv fuel taskId taskTitle reminderTime isRepeating ri opts now idBase h
    cases fuel with
    | zero => rfl
    | succ fuel =>
        unfold scheduleTaskReminder
        rw [if_pos h]
  · intro tasks taskId minutes newId now store r c hm heq
    unfold snoozePlan at heq
    cases htask : tasks.find? (fun t => t.id = taskId) with
    | none => rw [htask] at heq; exact absurd heq (by simp)
    | some task =>
        rw [htask] at heq
        simp only [Option.some.injEq, Prod.mk.injEq] at heq
        have hr : r.createdAt = now ∧ r.scheduledTime = now + minutes * 60000 := by
          rw [← heq.1]
          exact ⟨rfl, rfl⟩
        have hpos : 0 < minutes * 60000 := mul_pos hm (by norm_num)
        omega

/-- C2 witness: the three provable parts instantiated: a past reminder at
time 0 with `now = 0` persists nothing even when repeating, the record
persisted for a future reminder is scheduled after its creation, and so is
the record a 10-minute snooze creates. -/
theorem scheduling_entry_future_only_witness :
    scheduleTaskReminder advDemo 2 0 "T" 0 true (some RecurringPattern.daily)
        {} 0 0 = []
    ∧ c2demoTaskRec.createdAt < c2demoTaskRec.scheduledTime
    ∧ c2demoSnoozeRec.createdAt < c2demoSnoozeRec.scheduledTime :=
  ⟨scheduling_entry_future_only.1 advDemo 2 0 "T" 0 true
      (some RecurringPattern.daily) {} 0 0 (by decide),
    scheduling_entry_future_only.2.1 advDemo 1 0 "T" 10 false none {} 5 0
      c2demoTaskRec (by decide),
    scheduling_entry_future_only.2.2 [{ id := 0, title := "T" }] 0 10 5 0 []
      c2demoSnoozeRec 1 (by decide) (by decide)⟩

/-- C2 counterexample: delivering the daily recurring record scheduled at
time 0 two days late (at 172800000 ms) makes the recurrence path persist a
record scheduled at 86400000 ms, strictly before its creation time, refuting
the claim that every record persisted via the recurrence path is scheduled
after its creation time. -/
theorem recurrence_past_schedule_counterexample :
    scheduleRecurringNotification advDemo lateRecurring 1 172800000
      = some (nextRecurring advDemo RecurringPattern.daily lateRecurring 1 172800000)
    ∧ (nextRecurring advDemo RecurringPattern.daily lateRecurring 1
        172800000).scheduledTime
      < (nextRecurring advDemo RecurringPattern.daily lateRecurring 1
          172800000).createdAt :=
  ⟨rfl, by decide⟩

/-- C7.  For a `scheduleTaskReminder` call with a task due date that creates
a record, the record category is overdue when the gap from reminder time to
due date is at most 0, deadline when it is positive and at most one hour,
and reminder otherwise; and without a caller priority override the priority
defaults to high exactly in the overdue case, normal otherwise. -/
theorem scheduleTaskReminder_category (adv : RecurringPattern → Int → Int)
    (fuel taskId : Nat) (taskTitle : String) (reminderTime : Int)
    (isRepeating : Bool) (ri : Option RecurringPattern)
    (opts : TaskReminderOptions) (now : Int) (idBase : Nat) (d : Int)
    (r : ScheduledNotification)
    (hdue : opts.taskDueDate = some d)
    (hfut : now < reminderTime)
    (hr : (scheduleTaskReminder adv (fuel + 1) taskId taskTitle reminderTime
        isRepeating ri opts now idBase).head? = some r) :
    r.category = some (if d - reminderTime ≤ 0 then Category.overdue
        else if d - reminderTime ≤ 3600000 then Category.deadline
        else Category.reminder)
    ∧ (opts.priority = none →
        r.priority = some (if d - reminderTime ≤ 0 then Priority.high
          else Priority.normal)) := by
  unfold scheduleTaskReminder at hr
  rw [if_neg (by omega)] at hr
  rw [List.head?_cons, Option.some.injEq] at hr
  subst hr
  have hcat : deriveCategory opts.taskDueDate reminderTime
      = (if d - reminderTime ≤ 0 then Category.overdue
        else if d - reminderTime ≤ 3600000 then Category.deadline
        else Category.reminder) := by
    rw [hdue]
    rfl
  constructor
  · show some ((some (deriveCategory opts.taskDueDate reminderTime)).getD .reminder) = _
    rw [Option.getD_some, hcat]
  · intro hp
    show some ((some (opts.priority.getD _)).getD .normal) = _
    rw [Option.getD_some, hp]
    by_cases h0 : d - reminderTime ≤ 0
    · rw [if_pos h0]
      have : deriveCategory opts.taskDueDate reminderTime = Category.overdue := by
        rw [hcat, if_pos h0]
      rw [this]
      rfl
    · rw [if_neg h0]
      have : deriveCategory opts.taskDueDate reminderTime ≠ Category.overdue := by
        rw [hcat, if_neg h0]
        by_cases h1 : d - reminderTime ≤ 3600000
        · rw [if_pos h1]; decide
        · rw [if_neg h1]; decide
      rw [if_neg this]
      rfl

/-- C7 witness: a reminder at time 100 for a task due at 50 (gap -50)
produces an overdue record with default priority high. -/
theorem scheduleTaskReminder_category_witness :
    c7demoRec.category = some Category.overdue
    ∧ c7demoRec.priority = some Priority.high := by
  obtain ⟨h1, h2⟩ := scheduleTaskReminder_category advDemo 0 0 "T" 100 false
    none { taskDueDate := some 50 } 0 10 50 c7demoRec rfl (by decide) (by decide)
  rw [if_pos (show (50 : Int) - 100 ≤ 0 by norm_num)] at h1
  have h2 := h2 rfl
  rw [if_pos (show (50 : Int) - 100 ≤ 0 by norm_num)] at h2
  exact ⟨h1, h2⟩

theorem mem_addRecord_of_mem {base : List ScheduledNotification}
    {x : ScheduledNotification} (r : ScheduledNotification) (hx : x ∈ base) :
    x ∈ addRecord base r := by
  unfold addRecord
  split_ifs
  · exact hx
  · exact List.mem_append_left _ hx

theorem mem_foldl_addRecord (l : List ScheduledNotification) :
    ∀ (base : List ScheduledNotification) (m : ScheduledNotification),
      m ∈ l.foldl addRecord base →
      m ∈ base ∨ (m ∈ l ∧ ∀ x ∈ base, x.id ≠ m.id) := by
  induction l with
  | nil => intro base m hm; exact .inl hm
  | cons r l ih =>
      intro base m hm
      rw [List.foldl_cons] at hm
      rcases ih (addRecord base r) m hm with h | ⟨hml, hids⟩
      · unfold addRecord at h
        split_ifs at h with hdup
        · exact .inl h
        · rcases List.mem_append.mp h with h | h
          · exact .inl h
          · have hxr := List.mem_singleton.mp h
            refine .inr ⟨by rw [hxr]; exact List.mem_cons_self r l, ?_⟩
            intro x hx hcontra
            apply hdup
            rw [List.any_eq_true]
            exact ⟨x, hx, by simpa using hxr ▸ hcontra⟩
      · exact .inr ⟨List.mem_cons_of_mem r hml,
          fun x hx => hids x (mem_addRecord_of_mem r hx)⟩

theorem recurrenceRecords_cons_none {adv : RecurringPattern → Int → Int}
    {now : Int} {idBase : Nat} {n : ScheduledNotification}
    {rest : List ScheduledNotification} (hp : n.recurringPattern = none) :
    recurrenceRecords adv now idBase (n :: rest)
      = recurrenceRecords adv now idBase rest := by
  conv_lhs => unfold recurrenceRecords
  rw [hp]

theorem recurrenceRecords_cons_some {adv : RecurringPattern → Int → Int}
    {now : Int} {idBase : Nat} {n : ScheduledNotification}
    {rest : List ScheduledNotification} {p : RecurringPattern}
    (hp : n.recurringPattern = some p) :
    recurrenceRecords adv now idBase (n :: rest)
      = if n.isRecurring then
          nextRecurring adv p n idBase now
            :: recurrenceRecords adv now (idBase + 1) rest
        else recurrenceRecords adv now idBase rest := by
  conv_lhs => unfold recurrenceRecords
  rw [hp]

theorem mem_recurrenceRecords {adv : RecurringPattern → Int → Int} {now : Int} :
    ∀ {idBase : Nat} {l : List ScheduledNotification}
      {x : ScheduledNotification},
      x ∈ recurrenceRecords adv now idBase l →
      ∃ n ∈ l, ∃ p, n.recurringPattern = some p ∧ n.isRecurring = true
        ∧ ∃ j, x = nextRecurring adv p n j now := by
  intro idBase l
  induction l generalizing idBase with
  | nil => intro x hx; simp [recurrenceRecords] at hx
  | cons n rest ih =>
      intro x hx
      cases hp : n.recurringPattern with
      | none =>
          rw [recurrenceRecords_cons_none hp] at hx
          rcases ih hx with ⟨n', hn', hrest⟩
          exact ⟨n', List.mem_cons_of_mem n hn', hrest⟩
      | some p =>
          rw [recurrenceRecords_cons_some hp] at hx
          by_cases hr : n.isRecurring
          · rw [if_pos hr] at hx
            rcases List.mem_cons.mp hx with rfl | hx
            · exact ⟨n, List.mem_cons_self n rest, p, hp, hr, idBase, rfl⟩
            · rcases ih hx with ⟨n', hn', hrest⟩
              exact ⟨n', List.mem_cons_of_mem n hn', hrest⟩
          · rw [if_neg hr] at hx
            rcases ih hx with ⟨n', hn', hrest⟩
            exact ⟨n', List.mem_cons_of_mem n hn', hrest⟩

/-- C4 (amended).  Running the trigger evaluator twice in immediate
succession (same `now`, no external scheduling in between) leaves nothing
both due and untriggered for the second pass, provided every recurring due
record has its next occurrence computed strictly after `now` (delivery lag
below one interval); without that proviso the claim fails, see the
counterexample. -/
theorem checkAndTrigger_second_pass_empty (adv : RecurringPattern → Int → Int)
    (now : Int) (idBase : Nat) (store : List ScheduledNotification)
    (h : ∀ n ∈ store, isDue now n = true → n.isRecurring = true →
        ∀ p, n.recurringPattern = some p →
          now < adv p (n.originalScheduledTime.getD n.scheduledTime)) :
    (checkAndTriggerNotifications adv now idBase store).filter (isDue now) = [] := by
  rw [List.filter_eq_nil_iff]
  intro m hm
  simp only [checkAndTriggerNotifications] at hm
  by_cases hdue : (store.filter (isDue now)).isEmpty
  · rw [if_pos hdue] at hm
    have hnil := List.isEmpty_iff.mp hdue
    rw [List.filter_eq_nil_iff] at hnil
    exact hnil m hm
  · rw [if_neg hdue] at hm
    rcases mem_foldl_addRecord _ _ _ hm with hmm | ⟨hmr, _⟩
    · rcases List.mem_map.mp hmm with ⟨n', hn', rfl⟩
      by_cases hc : n'.id ∈ (store.filter (isDue now)).map (fun n => n.id)
      · rw [if_pos hc]
        simp [isDue]
      · rw [if_neg hc]
        intro hd
        exact hc (List.mem_map.mpr ⟨n', List.mem_filter.mpr ⟨hn', hd⟩, rfl⟩)
    · rcases mem_recurrenceRecords hmr with ⟨n, hn, p, hp, hrec, j, rfl⟩
      have hnd : n ∈ store.filter (isDue now) :=
        (group_flatten_perm (store.filter (isDue now)) (3 * 60 * 1000)).mem_iff.mp hn
      rw [List.mem_filter] at hnd
      have hgt := h n hnd.1 hnd.2 hrec p hp
      simp only [isDue, nextRecurring, scheduleNotification, Bool.not_false,
        Bool.true_and, decide_eq_true_eq]
      omega

/-- C4 witness: a store holding one daily recurring record due at time 0,
evaluated at time 0 (no delivery lag): the successor is scheduled one day
ahead, so the second pass finds nothing due and untriggered. -/
theorem checkAndTrigger_second_pass_empty_witness :
    (checkAndTriggerNotifications advDemo 0 1 [lateRecurring]).filter (isDue 0)
      = [] := by
  refine checkAndTrigger_second_pass_empty advDemo 0 1 [lateRecurring] ?_
  intro n hn hdue hrec p hp
  rw [List.mem_singleton.mp hn] at hp ⊢
  have : p = RecurringPattern.daily := by
    have : some RecurringPattern.daily = some p := hp
    exact (Option.some.injEq _ _ ▸ this).symm
  rw [this]
  decide

/-- C4 counterexample: the same store evaluated two days late
(now = 172800000): the first pass marks the record and creates its successor
scheduled at 86400000, which is already due and untriggered, so an
immediately following second pass finds a due record, refuting the claim. -/
theorem checkAndTrigger_second_pass_counterexample :
    (checkAndTriggerNotifications advDemo 172800000 1 [lateRecurring]).filter
      (isDue 172800000) ≠ [] := by
  decide

theorem mem_patchFirst {p : ScheduledNotification → Bool}
    {f : ScheduledNotification → ScheduledNotification} :
    ∀ {l : List ScheduledNotification} {m : ScheduledNotification},
      m ∈ patchFirst p f l → ∃ x ∈ l, m = x ∨ m = f x := by
  intro l
  induction l with
  | nil => intro m hm; simp [patchFirst] at hm
  | cons n l ih =>
      intro m hm
      unfold patchFirst at hm
      split_ifs at hm with hp
      · rcases List.mem_cons.mp hm with rfl | hm
        · exact ⟨n, List.mem_cons_self n l, Or.inr rfl⟩
        · exact ⟨m, List.mem_cons_of_mem n hm, Or.inl rfl⟩
      · rcases List.mem_cons.mp hm with rfl | hm
        · exact ⟨m, List.mem_cons_self m l, Or.inl rfl⟩
        · rcases ih hm with ⟨x, hx, hmx⟩
          exact ⟨x, List.mem_cons_of_mem n hx, hmx⟩

theorem mem_addRecord_id (store : List ScheduledNotification)
    (r m : ScheduledNotification) (hm : m ∈ addRecord store r) :
    m ∈ store ∨ (m = r ∧ ∀ x ∈ store, x.id ≠ r.id) := by
  unfold addRecord at hm
  split_ifs at hm with hdup
  · exact .inl hm
  · rcases List.mem_append.mp hm with h | h
    · exact .inl h
    · refine .inr ⟨List.mem_singleton.mp h, ?_⟩
      intro x hx hxe
      exact hdup (by rw [List.any_eq_true]; exact ⟨x, hx, by simpa using hxe⟩)

theorem snoozeNotification_of_plan_none {tasks : List Task} {taskId : Nat}
    {minutes : Int} {newId : Nat} {now : Int}
    {store : List ScheduledNotification}
    (h : snoozePlan tasks taskId minutes newId now store = none) :
    snoozeNotification tasks taskId minutes newId now store = store := by
  conv_lhs => unfold snoozeNotification
  rw [h]

theorem snoozeNotification_of_plan_some {tasks : List Task} {taskId : Nat}
    {minutes : Int} {newId : Nat} {now : Int}
    {store : List ScheduledNotification} {r : ScheduledNotification} {c : Nat}
    (h : snoozePlan tasks taskId minutes newId now store = some (r, c)) :
    snoozeNotification tasks taskId minutes newId now store
      = patchFirst
          (fun n => n.taskId = taskId && n.scheduledTime = r.scheduledTime)
          (fun n => { n with snoozeCount := some c })
          (addRecord store r) := by
  conv_lhs => unfold snoozeNotification
  rw [h]

/-- C5.  Records are created untriggered, and `isTriggered` only ever moves
from false to true: for every operation of the subsystem, if the store (with
unique ids, the pack invariant) holds a triggered record with id `i`, then
after the operation every record with id `i` is still triggered — the mark
operation sets the flag, the snooze patch only touches `snoozeCount`, and
creation paths only add records under fresh ids. -/
theorem isTriggered_monotone :
    (∀ (id taskId : Nat) (title body : String) (t : Int)
        (opts : ScheduleOptions) (now : Int),
        (scheduleNotification id taskId title body t opts now).isTriggered = false)
    ∧ (∀ (adv : RecurringPattern → Int → Int) (now : Int) (tasks : List Task)
        (op : NotificationOp) (store : List ScheduledNotification) (i : Nat),
        (store.map (fun n => n.id)).Nodup →
        (∃ n ∈ store, n.id = i ∧ n.isTriggered = true) →
        ∀ m ∈ applyOp adv now tasks op store, m.id = i → m.isTriggered = true) := by
  refine ⟨fun _ _ _ _ _ _ _ => rfl, ?_⟩
  rintro adv now tasks op store i hnd ⟨n, hn, hni, hnt⟩ m hm hmi
  have uniq : ∀ x ∈ store, x.id = i → x = n := fun x hx hxi =>
    List.inj_on_of_nodup_map hnd hx hn (by rw [hxi, hni])
  cases op with
  | schedule newId taskId title body t opts =>
      simp only [applyOp] at hm
      rcases mem_addRecord_id _ _ _ hm with h | ⟨rfl, hfr⟩
      · exact (uniq m h hmi).symm ▸ hnt
      · exact absurd (hni.trans hmi.symm) (hfr n hn)
  | mark id =>
      simp only [applyOp] at hm
      rcases List.mem_map.mp hm with ⟨x, hx, rfl⟩
      by_cases hxid : x.id = id
      · rw [if_pos hxid]
      · rw [if_neg hxid] at hmi ⊢
        exact (uniq x hx hmi).symm ▸ hnt
  | del id =>
      simp only [applyOp] at hm
      exact (uniq m (List.mem_filter.mp hm).1 hmi).symm ▸ hnt
  | snooze taskId minutes newId =>
      simp only [applyOp] at hm
      cases hplan : snoozePlan tasks taskId minutes newId now store with
      | none =>
          rw [snoozeNotification_of_plan_none hplan] at hm
          exact (uniq m hm hmi).symm ▸ hnt
      | some rc =>
          obtain ⟨r, c⟩ := rc
          rw [snoozeNotification_of_plan_some hplan] at hm
          rcases mem_patchFirst hm with ⟨x, hx, hmx⟩
          have hxid : m.id = x.id := by rcases hmx with rfl | rfl <;> rfl
          have hxt : m.isTriggered = x.isTriggered := by
            rcases hmx with rfl | rfl <;> rfl
          rcases mem_addRecord_id _ _ _ hx with hxs | ⟨rfl, hfr⟩
          · rw [hxt]
            exact (uniq x hxs (hxid.symm.trans hmi)).symm ▸ hnt
          · exact absurd (hni.trans (hxid.symm.trans hmi).symm) (hfr n hn)
  | taskReminder fuel taskId taskTitle reminderTime isRepeating ri opts idBase =>
      simp only [applyOp] at hm
      rcases mem_foldl_addRecord _ _ _ hm with h | ⟨_, hids⟩
      · exact (uniq m h hmi).symm ▸ hnt
      · exact absurd (hni.trans hmi.symm) (hids n hn)
  | check idBase =>
      simp only [applyOp] at hm
      simp only [checkAndTriggerNotifications] at hm
      by_cases hdue : (store.filter (isDue now)).isEmpty
      · rw [if_pos hdue] at hm
        exact (uniq m hm hmi).symm ▸ hnt
      · rw [if_neg hdue] at hm
        rcases mem_foldl_addRecord _ _ _ hm with hmm | ⟨_, hids⟩
        · rcases List.mem_map.mp hmm with ⟨x, hx, rfl⟩
          by_cases hxid : x.id ∈ (store.filter (isDue now)).map (fun n => n.id)
          · rw [if_pos hxid]
          · rw [if_neg hxid] at hmi ⊢
            exact (uniq x hx hmi).symm ▸ hnt
        · refine absurd ?_ (hids _ (List.mem_map_of_mem
            (fun x => if x.id ∈ (store.filter (isDue now)).map (fun n => n.id)
              then { x with isTriggered := true } else x) hn))
          have hid2 : (if n.id ∈ (store.filter (isDue now)).map (fun n => n.id)
              then { n with isTriggered := true } else n).id = n.id := by
            split_ifs <;> rfl
          exact hid2.trans (hni.trans hmi.symm)

/-- C5 witness: records are created untriggered, and marking the (already
triggered) record with id 0 leaves it triggered. -/
theorem isTriggered_monotone_witness :
    (scheduleNotification 1 0 "a" "b" 5 {} 0).isTriggered = false
    ∧ trigDemoRec.isTriggered = true :=
  ⟨isTriggered_monotone.1 1 0 "a" "b" 5 {} 0,
    isTriggered_monotone.2 advDemo 0 [] (NotificationOp.mark 0) [trigDemoRec] 0
      (by decide) ⟨trigDemoRec, by decide, rfl, rfl⟩ trigDemoRec (by decide) rfl⟩

theorem patchFirst_append_not {p : ScheduledNotification → Bool}
    {f : ScheduledNotification → ScheduledNotification} :
    ∀ {l₁ l₂ : List ScheduledNotification}, (∀ x ∈ l₁, p x = false) →
      patchFirst p f (l₁ ++ l₂) = l₁ ++ patchFirst p f l₂ := by
  intro l₁
  induction l₁ with
  | nil => intro l₂ _; rfl
  | cons a l ih =>
      intro l₂ h
      show patchFirst p f (a :: (l ++ l₂)) = _
      conv_lhs => unfold patchFirst
      rw [h a (List.mem_cons_self a l),
        ih (fun x hx => h x (List.mem_cons_of_mem a hx))]
      simp

/-- C6 (amended).  A snooze on an existing task whose first untriggered
notification carries snoozeCount k appends one new record with
snoozeCount k+1, scheduledTime now + minutes·60000, the count-dependent
title, and priority high exactly when k+1 exceeds 2 — provided the fresh id
is unused and no already-stored record of the task sits exactly at the
snooze time (otherwise the count patch lands on that record instead, see the
counterexample). -/
theorem patchFirst_single_true {p : ScheduledNotification → Bool}
    {f : ScheduledNotification → ScheduledNotification}
    {r : ScheduledNotification} (hr : p r = true) :
    patchFirst p f [r] = [f r] := by
  unfold patchFirst
  rw [hr]
  simp

theorem snooze_creates_incremented_record (tasks : List Task) (taskId : Nat)
    (minutes : Int) (newId : Nat) (now : Int)
    (store : List ScheduledNotification) (task : Task)
    (ex : ScheduledNotification) (k : Nat)
    (htask : tasks.find? (fun t => t.id = taskId) = some task)
    (hex : store.find? (fun n => n.taskId = taskId && !n.isTriggered) = some ex)
    (hk : ex.snoozeCount.getD 0 = k)
    (hfresh : ∀ n ∈ store, n.id ≠ newId)
    (hnocol : ∀ n ∈ store,
        ¬(n.taskId = taskId ∧ n.scheduledTime = now + minutes * 60000)) :
    ∃ newRec : ScheduledNotification,
      snoozeNotification tasks taskId minutes newId now store = store ++ [newRec]
      ∧ newRec.id = newId
      ∧ newRec.isTriggered = false
      ∧ newRec.snoozeCount = some (k + 1)
      ∧ newRec.scheduledTime = now + minutes * 60000
      ∧ newRec.title = (if k + 1 > 1
          then "Snoozed Task (" ++ toString (k + 1) ++ "x)"
          else "Snoozed Task Reminder")
      ∧ newRec.priority
          = some (if k + 1 > 2 then Priority.high else Priority.normal) := by
  have hplan : snoozePlan tasks taskId minutes newId now store
      = some (scheduleNotification newId taskId
          (if k + 1 > 1 then "Snoozed Task (" ++ toString (k + 1) ++ "x)"
            else "Snoozed Task Reminder")
          ("Don\x27t forget: " ++ task.title) (now + minutes * 60000)
          { priority := some (if k + 1 > 2 then .high else .normal)
            category := some .reminder
            taskDueDate := task.dueDate } now, k + 1) := by
    simp only [snoozePlan, htask, hex, hk]
  rw [snoozeNotification_of_plan_some hplan]
  have hadd : addRecord store (scheduleNotification newId taskId
      (if k + 1 > 1 then "Snoozed Task (" ++ toString (k + 1) ++ "x)"
        else "Snoozed Task Reminder")
      ("Don\x27t forget: " ++ task.title) (now + minutes * 60000)
      { priority := some (if k + 1 > 2 then .high else .normal)
        category := some .reminder
        taskDueDate := task.dueDate } now)
      = store ++ [scheduleNotification newId taskId
          (if k + 1 > 1 then "Snoozed Task (" ++ toString (k + 1) ++ "x)"
            else "Snoozed Task Reminder")
          ("Don\x27t forget: " ++ task.title) (now + minutes * 60000)
          { priority := some (if k + 1 > 2 then .high else .normal)
            category := some .reminder
            taskDueDate := task.dueDate } now] := by
    unfold addRecord
    rw [if_neg]
    intro hany
    rw [List.any_eq_true] at hany
    rcases hany with ⟨x, hx, hxe⟩
    exact hfresh x hx (by simpa using hxe)
  rw [hadd]
  rw [patchFirst_append_not (fun x hx => by
    rw [Bool.eq_false_iff]
    intro hb
    rw [Bool.and_eq_true, decide_eq_true_eq, decide_eq_true_eq] at hb
    exact hnocol x hx hb)]
  rw [patchFirst_single_true (by simp [scheduleNotification])]
  exact ⟨_, rfl, rfl, rfl, rfl, rfl, rfl, rfl⟩

/-- C6 witness: snoozing task 0 by one minute at time 0, with one untriggered
record at count 2 scheduled elsewhere, appends a record with count 3,
schedule time 60000, the 3x title, and high priority (third snooze). -/
theorem snooze_creates_incremented_record_witness :
    ∃ newRec : ScheduledNotification,
      snoozeNotification [{ id := 0, title := "T" }] 0 1 5 0 [snooze2DemoRec]
        = [snooze2DemoRec] ++ [newRec]
      ∧ newRec.id = 5
      ∧ newRec.isTriggered = false
      ∧ newRec.snoozeCount = some (2 + 1)
      ∧ newRec.scheduledTime = 0 + 1 * 60000
      ∧ newRec.title = (if 2 + 1 > 1
          then "Snoozed Task (" ++ toString (2 + 1) ++ "x)"
          else "Snoozed Task Reminder")
      ∧ newRec.priority
          = some (if 2 + 1 > 2 then Priority.high else Priority.normal) :=
  snooze_creates_incremented_record [{ id := 0, title := "T" }] 0 1 5 0
    [snooze2DemoRec] { id := 0, title := "T" } snooze2DemoRec 2
    (by decide) (by decide) rfl (by decide) (by decide)

/-- C6 counterexample: the task has an untriggered record (snoozeCount 0)
whose scheduledTime is exactly the snooze time 60000; the claim predicts the
newly persisted record (fresh id 5) carries snoozeCount 1, but the patch step
hits the pre-existing record (id 0) first, so the new record keeps
snoozeCount 0 and the old record gets the incremented count. -/
theorem snooze_counterexample :
    (snoozeNotification [{ id := 0, title := "T" }] 0 1 5 0 [collDemoRec]).map
        (fun n => (n.id, n.snoozeCount))
      = [(0, some 1), (5, some 0)] := by
  decide

/-- C8 counterexample: in the part_000 scheduler variant, the sequence
start; start; stop leaves the interval created by the first start running
(its handle was overwritten by the second start) and three listener
registrations attached — the two anonymous `visibilitychange` closures plus
the single deduplicated `focus` registration of the module-level handler —
refuting that the state has no live timer and no attached listeners. -/
theorem scheduler_counterexample :
    (stopNotificationScheduler0 (startNotificationScheduler0
        (startNotificationScheduler0 SchedulerState0.init))).intervals = [0]
    ∧ (stopNotificationScheduler0 (startNotificationScheduler0
        (startNotificationScheduler0
          SchedulerState0.init))).visibilityListeners = 2
    ∧ (stopNotificationScheduler0 (startNotificationScheduler0
        (startNotificationScheduler0
          SchedulerState0.init))).focusListenerAttached = true := by
  decide

/-- C8 (amended).  In the part_001 variant, start; start; stop leaves zero
active intervals (the double-start guard clears the previous interval and
stop clears the current one), but the listener pair attached by the first
start stays attached because the stored cleanup only detaches the second
pair; in the part_000 variant even the first interval survives the stop, and
two `visibilitychange` registrations plus the `focus` registration remain
attached. -/
theorem scheduler_start_start_stop :
    (stopNotificationScheduler1 (startNotificationScheduler1
        (startNotificationScheduler1 SchedulerState1.init))).intervals = []
    ∧ (stopNotificationScheduler1 (startNotificationScheduler1
        (startNotificationScheduler1 SchedulerState1.init))).listenerPairs = [0]
    ∧ (stopNotificationScheduler0 (startNotificationScheduler0
        (startNotificationScheduler0 SchedulerState0.init))).intervals = [0]
    ∧ (stopNotificationScheduler0 (startNotificationScheduler0
        (startNotificationScheduler0
          SchedulerState0.init))).visibilityListeners = 2
    ∧ (stopNotificationScheduler0 (startNotificationScheduler0
        (startNotificationScheduler0
          SchedulerState0.init))).focusListenerAttached = true := by
  decide

/-- C9 counterexample: deleting id 0 from the empty store (the id is absent)
succeeds as a no-op instead of rejecting with a NotFound error. -/
theorem delete_counterexample :
    deleteScheduledNotification [] 0 = Except.ok [] := rfl

/-- C9 (amended).  Delete always resolves successfully — IndexedDB delete
requests do not signal a missing key — removing exactly the records with the
given id; on an absent id it is a successful no-op, never a NotFound
rejection. -/
theorem delete_removes_and_never_rejects (store : List ScheduledNotification)
    (id : Nat) :
    ∃ l, deleteScheduledNotification store id = Except.ok l
      ∧ (∀ n, n ∈ l ↔ n ∈ store ∧ n.id ≠ id) := by
  refine ⟨store.filter (fun n => n.id ≠ id), rfl, ?_⟩
  intro n
  simp [List.mem_filter]

end SmartReminder
